import Mathlib

/-!
Shallow embedding of `src/smc-fan-controller.py`.

Modelling conventions:
- Python integers are `ℤ`; Python floats are modelled as exact rationals `ℚ`.
  Every concrete instance evaluated in this development uses values whose
  binary64 arithmetic is exact (dyadic slopes and intercepts), so the rational
  model and the Python float behaviour coincide on them.
- Python `int()` truncates toward zero; this is `pyTrunc`.
- The insertion-ordered Python `dict` built by `generate_curve_coefficients`
  is modelled as an association list in insertion order. Its keys are the
  temperatures of the tail of the sorted control-point list; whenever two
  control points share a temperature the Python code raises
  `ZeroDivisionError` before returning, so every dict the Python function
  actually returns has distinct keys and the association-list model is exact.
- Python `sorted` (a stable sort) is modelled by `List.insertionSort`, which
  is also stable for the key order used here.
- Fallible gateway calls (which return `False` on failure) are modelled with
  `Option`: `none` is the `False` branch.
- `exit(n)` is modelled by returning the exit code `n`.
-/

/-- Module constant `FAN_ZONES = [0, 1]`. -/
def FAN_ZONES : List ℤ := [0, 1]

/-- Module constant `FAN_ZONE_OFFSETS = [0, -30]`. -/
def FAN_ZONE_OFFSETS : List ℤ := [0, -30]

/-- Module constant `TEMPERATURE_CURVE`. -/
def TEMPERATURE_CURVE : List (ℤ × ℤ) := [(0, 0), (40, 20), (60, 50), (80, 80), (90, 100)]

/-- Module constant `FAN_PRESET_STANDARD = 0`. -/
def FAN_PRESET_STANDARD : ℤ := 0

/-- Module constant `FAN_PRESET_FULL = 1`. -/
def FAN_PRESET_FULL : ℤ := 1

/-- Module constant `FAN_PRESET_OPTIMAL = 2`. -/
def FAN_PRESET_OPTIMAL : ℤ := 2

/-- Module constant `FAN_PRESET_HEAVYIO = 4`. -/
def FAN_PRESET_HEAVYIO : ℤ := 4

/-- Order on control points used by `sorted(input_coords, key=lambda x: x[0])`:
compare by temperature (first component). -/
def pointLE (a b : ℤ × ℤ) : Prop := a.1 ≤ b.1

instance : DecidableRel pointLE := fun a b => inferInstanceAs (Decidable (a.1 ≤ b.1))

instance : IsTotal (ℤ × ℤ) pointLE := ⟨fun a b => le_total a.1 b.1⟩

instance : IsTrans (ℤ × ℤ) pointLE := ⟨fun _ _ _ h1 h2 => le_trans h1 h2⟩

/-- Python `int()` applied to a float: truncation toward zero. -/
def pyTrunc (q : ℚ) : ℤ := if 0 ≤ q then ⌊q⌋ else ⌈q⌉

/-- Loop body of `generate_curve_coefficients`: walking the sorted tail with the
`previous` accumulator, emitting for each `coord` the entry
`coord[0] ↦ (m, b)` with `m = (y1 - y0) / (x1 - x0)` and `b = y0 - m * x0`. -/
def segmentsFrom (previous : ℤ × ℤ) : List (ℤ × ℤ) → List (ℤ × ℚ × ℚ)
  | [] => []
  | coord :: rest =>
    let m : ℚ := ((coord.2 : ℚ) - (previous.2 : ℚ)) / ((coord.1 : ℚ) - (previous.1 : ℚ))
    let b : ℚ := (previous.2 : ℚ) - m * (previous.1 : ℚ)
    (coord.1, m, b) :: segmentsFrom coord rest

/-- `generate_curve_coefficients(input_coords)`: sort the points by temperature,
pop the first point as the initial `previous`, then build the segment dict.
On the empty list the Python code raises `IndexError` from `pop(0)`; the model
returns the empty curve there (no claim touches that case). -/
def generate_curve_coefficients (input_coords : List (ℤ × ℤ)) : List (ℤ × ℚ × ℚ) :=
  match List.insertionSort pointLE input_coords with
  | [] => []
  | previous :: rest => segmentsFrom previous rest

/-- `target_fan_speed(curve, temperature)`: scan the segments in insertion
(ascending upper-bound) order; on the first segment whose key bounds the
temperature return `int(m * temperature + b)`; if none matches return 100. -/
def target_fan_speed (curve : List (ℤ × ℚ × ℚ)) (temperature : ℤ) : ℤ :=
  match curve with
  | [] => 100
  | segment :: rest =>
    if temperature ≤ segment.1 then pyTrunc (segment.2.1 * (temperature : ℚ) + segment.2.2)
    else target_fan_speed rest temperature

/-- Curve construction in the specification's words: for each consecutive pair
`(t0,s0),(t1,s1)` of the point list, `slope = (s1-s0)/(t1-t0)`,
`intercept = s0 - slope*t0`, keyed by `t1`. Used only to compare against
`generate_curve_coefficients`. -/
def buildCurveSpec (points : List (ℤ × ℤ)) : List (ℤ × ℚ × ℚ) :=
  (points.zip points.tail).map (fun pq =>
    let slope : ℚ := ((pq.2.2 : ℚ) - (pq.1.2 : ℚ)) / ((pq.2.1 : ℚ) - (pq.1.1 : ℚ))
    (pq.2.1, slope, (pq.1.2 : ℚ) - slope * (pq.1.1 : ℚ)))

/-- Evaluation in the specification's words: return the first segment in
ascending upper-bound order whose upper bound covers the temperature,
truncating toward zero; 100 if no segment matches. Used only to compare
against `target_fan_speed`. -/
def evaluateSpec (curve : List (ℤ × ℚ × ℚ)) (temperature : ℤ) : ℤ :=
  match curve.find? (fun segment => decide (temperature ≤ segment.1)) with
  | some segment => pyTrunc (segment.2.1 * (temperature : ℚ) + segment.2.2)
  | none => 100

/-- Fatal failures a loop iteration can end in. -/
inductive LoopError where
  | tempReadFailed
  | emptyTemps
  | zoneWriteFailed
deriving DecidableEq

/-- Zone-write loop of `main_loop`: for each `(zone, offset)` pair compute
`max(min(target_speed + offset, 100), 0)` and issue the write; a failing write
raises `IOError` at once (no further zone is written). Returns the list of
writes issued (the failing attempt included) and the error, if any. -/
def zone_writes (writeOk : ℤ → ℤ → Bool) (target_speed : ℤ) :
    List (ℤ × ℤ) → List (ℤ × ℤ) × Option LoopError
  | [] => ([], none)
  | zo :: rest =>
    let s := max (min (target_speed + zo.2) 100) 0
    if writeOk zo.1 s then
      let r := zone_writes writeOk target_speed rest
      ((zo.1, s) :: r.1, r.2)
    else ([(zo.1, s)], some LoopError.zoneWriteFailed)

/-- One iteration of `main_loop(temp_sensors, temperature_curve)`, with the
outcome of `get_system_temps` passed in (`none` models its `False` branch).
A `False` read raises `IOError`; an empty reading list hits `max(temps)`,
which raises `ValueError`; otherwise the curve is evaluated at `max(temps)`
and the zone writes are issued in order. -/
def main_loop (writeOk : ℤ → ℤ → Bool) (temperature_curve : List (ℤ × ℚ × ℚ))
    (tempsResult : Option (List ℤ)) : List (ℤ × ℤ) × Option LoopError :=
  match tempsResult with
  | none => ([], some LoopError.tempReadFailed)
  | some [] => ([], some LoopError.emptyTemps)
  | some (t :: ts) =>
    let target_speed := target_fan_speed temperature_curve (ts.foldl max t)
    zone_writes writeOk target_speed (FAN_ZONES.zip FAN_ZONE_OFFSETS)

/-- Startup capture `EXIT_PRESET = get_fan_preset()` followed by
`EXIT_PRESET = FAN_PRESET_OPTIMAL if EXIT_PRESET is False else EXIT_PRESET`.
The query outcome is `none` when `get_fan_preset` returned `False`. -/
def capture_exit_preset (queryResult : Option ℤ) : ℤ :=
  match queryResult with
  | none => FAN_PRESET_OPTIMAL
  | some p => p

/-- `quit_and_reset_preset(clean=...)`: restore the captured preset; if the
restore fails, exit 2; otherwise exit 0 when clean and 1 when not.
`restoreOk` is the success of `set_fan_preset(EXIT_PRESET)`. -/
def quit_and_reset_preset (restoreOk : Bool) (clean : Bool) : ℕ :=
  if !restoreOk then 2 else if clean then 0 else 1

/-- Ways the process reaches `quit_and_reset_preset` in `__main__`:
a SIGINT/SIGTERM handler call, the `except KeyboardInterrupt` arm, or the
`except Exception` arm for a fatal loop error. -/
inductive ShutdownTrigger where
  | signalInterrupt
  | keyboardInterrupt
  | loopError
deriving DecidableEq

/-- Exit code of the process as a function of the shutdown trigger and the
restoration outcome: the signal handler and the `KeyboardInterrupt` arm call
`quit_and_reset_preset()` with `clean=True` (its default); the
`except Exception` arm calls it with `clean=False`. -/
def shutdown_exit_code (trigger : ShutdownTrigger) (restoreOk : Bool) : ℕ :=
  match trigger with
  | ShutdownTrigger.signalInterrupt => quit_and_reset_preset restoreOk true
  | ShutdownTrigger.keyboardInterrupt => quit_and_reset_preset restoreOk true
  | ShutdownTrigger.loopError => quit_and_reset_preset restoreOk false

-- Basic unfolding lemmas

lemma target_fan_speed_nil (T : ℤ) : target_fan_speed [] T = 100 := rfl

lemma target_fan_speed_cons (seg : ℤ × ℚ × ℚ) (rest : List (ℤ × ℚ × ℚ)) (T : ℤ) :
    target_fan_speed (seg :: rest) T =
      if T ≤ seg.1 then pyTrunc (seg.2.1 * (T : ℚ) + seg.2.2)
      else target_fan_speed rest T := rfl

lemma segmentsFrom_nil (p : ℤ × ℤ) : segmentsFrom p [] = [] := rfl

lemma segmentsFrom_cons (p c : ℤ × ℤ) (rest : List (ℤ × ℤ)) :
    segmentsFrom p (c :: rest) =
      (c.1, ((c.2 : ℚ) - (p.2 : ℚ)) / ((c.1 : ℚ) - (p.1 : ℚ)),
        (p.2 : ℚ) - ((c.2 : ℚ) - (p.2 : ℚ)) / ((c.1 : ℚ) - (p.1 : ℚ)) * (p.1 : ℚ)) ::
        segmentsFrom c rest := rfl

/-- A strictly ascending point list is already sorted, so `sorted` leaves it
unchanged. -/
lemma insertionSort_eq_self (l : List (ℤ × ℤ))
    (h : l.Pairwise (fun a b => a.1 < b.1)) : List.insertionSort pointLE l = l :=
  List.Sorted.insertionSort_eq (h.imp fun hab => le_of_lt hab)

/-- On a strictly ascending point list, `generate_curve_coefficients` is the
`previous`-accumulator walk over the tail. -/
lemma generate_eq_of_sorted (p : ℤ × ℤ) (rest : List (ℤ × ℤ))
    (h : (p :: rest).Pairwise (fun a b => a.1 < b.1)) :
    generate_curve_coefficients (p :: rest) = segmentsFrom p rest := by
  unfold generate_curve_coefficients
  rw [insertionSort_eq_self _ h]

/-- The default curve's segments, computed. -/
lemma generate_default :
    generate_curve_coefficients TEMPERATURE_CURVE =
      [(40, 1/2, 0), (60, 3/2, -40), (80, 3/2, -40), (90, 2, -80)] := by
  have h : TEMPERATURE_CURVE = (0, 0) :: [(40, 20), (60, 50), (80, 80), (90, 100)] := rfl
  rw [h, generate_eq_of_sorted _ _ (by decide)]
  norm_num [segmentsFrom_cons, segmentsFrom_nil]

/-- Default curve evaluated at 50 gives 35. -/
lemma target_default_50 :
    target_fan_speed (generate_curve_coefficients TEMPERATURE_CURVE) 50 = 35 := by
  rw [generate_default]
  norm_num [target_fan_speed_cons, target_fan_speed_nil, pyTrunc]

/-- Default curve evaluated at 0 gives 0. -/
lemma target_default_0 :
    target_fan_speed (generate_curve_coefficients TEMPERATURE_CURVE) 0 = 0 := by
  rw [generate_default]
  norm_num [target_fan_speed_cons, target_fan_speed_nil, pyTrunc]

/-- Default curve evaluated at 95 gives 100. -/
lemma target_default_95 :
    target_fan_speed (generate_curve_coefficients TEMPERATURE_CURVE) 95 = 100 := by
  rw [generate_default]
  norm_num [target_fan_speed_cons, target_fan_speed_nil, pyTrunc]

/-- Default curve evaluated at -10 extrapolates the first segment to -5. -/
lemma target_default_neg10 :
    target_fan_speed (generate_curve_coefficients TEMPERATURE_CURVE) (-10) = -5 := by
  rw [generate_default]
  norm_num [target_fan_speed_cons, target_fan_speed_nil, pyTrunc, Int.ceil_neg]

/-- Truncation toward zero keeps a value of [0,100] in [0,100]. -/
lemma pyTrunc_bounds (q : ℚ) (h0 : 0 ≤ q) (h1 : q ≤ 100) :
    0 ≤ pyTrunc q ∧ pyTrunc q ≤ 100 := by
  unfold pyTrunc
  rw [if_pos h0]
  refine ⟨Int.floor_nonneg.mpr h0, ?_⟩
  have h := Int.floor_le_floor h1
  simpa using h

/-- Truncation toward zero of an integer is that integer. -/
lemma pyTrunc_intCast (n : ℤ) : pyTrunc (n : ℚ) = n := by
  unfold pyTrunc
  split
  · exact Int.floor_intCast n
  · exact Int.ceil_intCast n

/-- A linear segment through two points with speeds in [0,100] stays in [0,100]
between the two temperatures. -/
lemma interp_bound (t0 s0 t1 s1 T : ℚ) (hlt : t0 < t1)
    (hs0 : 0 ≤ s0) (hs0h : s0 ≤ 100) (hs1 : 0 ≤ s1) (hs1h : s1 ≤ 100)
    (hT0 : t0 ≤ T) (hT1 : T ≤ t1) :
    0 ≤ (s1 - s0) / (t1 - t0) * T + (s0 - (s1 - s0) / (t1 - t0) * t0) ∧
      (s1 - s0) / (t1 - t0) * T + (s0 - (s1 - s0) / (t1 - t0) * t0) ≤ 100 := by
  have hd : (0 : ℚ) < t1 - t0 := by linarith
  have hmd : (s1 - s0) / (t1 - t0) * (t1 - t0) = s1 - s0 :=
    div_mul_cancel₀ _ (ne_of_gt hd)
  set q : ℚ := (s1 - s0) / (t1 - t0) * T + (s0 - (s1 - s0) / (t1 - t0) * t0) with hq
  have key : q * (t1 - t0) = s1 * (T - t0) + s0 * (t1 - T) := by
    rw [hq]
    linear_combination (T - t0) * hmd
  have hlo : 0 * (t1 - t0) ≤ q * (t1 - t0) := by
    rw [key, zero_mul]
    have h1 : 0 ≤ s1 * (T - t0) := mul_nonneg hs1 (by linarith)
    have h2 : 0 ≤ s0 * (t1 - T) := mul_nonneg hs0 (by linarith)
    linarith
  have hhi : q * (t1 - t0) ≤ 100 * (t1 - t0) := by
    rw [key]
    have h1 : 0 ≤ (100 - s1) * (T - t0) := mul_nonneg (by linarith) (by linarith)
    have h2 : 0 ≤ (100 - s0) * (t1 - T) := mul_nonneg (by linarith) (by linarith)
    nlinarith
  exact ⟨le_of_mul_le_mul_right hlo hd, le_of_mul_le_mul_right hhi hd⟩

/-- Scanning the segments built from a strictly ascending point list with
speeds in [0,100], at any temperature at or above the accumulator's
temperature, yields a value in [0,100]. -/
lemma target_segmentsFrom_bounds (T : ℤ) (rest : List (ℤ × ℤ)) :
    ∀ previous : ℤ × ℤ,
      (previous :: rest).Pairwise (fun a b => a.1 < b.1) →
      (∀ p ∈ previous :: rest, 0 ≤ p.2 ∧ p.2 ≤ 100) →
      previous.1 ≤ T →
      0 ≤ target_fan_speed (segmentsFrom previous rest) T ∧
        target_fan_speed (segmentsFrom previous rest) T ≤ 100 := by
  induction rest with
  | nil =>
    intro previous _ _ _
    rw [segmentsFrom_nil, target_fan_speed_nil]
    norm_num
  | cons c rest ih =>
    intro previous hpw hsp hT
    rw [segmentsFrom_cons, target_fan_speed_cons]
    by_cases hTc : T ≤ c.1
    · rw [if_pos hTc]
      have hlt : previous.1 < c.1 :=
        (List.pairwise_cons.mp hpw).1 c (List.mem_cons_self c rest)
      have hprev := hsp previous (List.mem_cons_self previous (c :: rest))
      have hc := hsp c (List.mem_cons_of_mem previous (List.mem_cons_self c rest))
      have hb := interp_bound (previous.1 : ℚ) (previous.2 : ℚ) (c.1 : ℚ) (c.2 : ℚ) (T : ℚ)
        (by exact_mod_cast hlt)
        (by exact_mod_cast hprev.1) (by exact_mod_cast hprev.2)
        (by exact_mod_cast hc.1) (by exact_mod_cast hc.2)
        (by exact_mod_cast hT) (by exact_mod_cast hTc)
      exact pyTrunc_bounds _ hb.1 hb.2
    · rw [if_neg hTc]
      refine ih c (List.pairwise_cons.mp hpw).2 ?_ (le_of_lt (lt_of_not_le hTc))
      intro p hp
      exact hsp p (List.mem_cons_of_mem previous hp)

/-- C2 (amended): for a curve built from control points with strictly
increasing temperatures and speeds all in [0,100], and any temperature at or
above the lowest control point's temperature, `target_fan_speed` returns an
integer in [0,100]. (As stated the claim is false: `target_fan_speed` applies
no clamp, so an out-of-range configured speed passes through, and temperatures
below the lowest point extrapolate out of range; see the counterexample.) -/
theorem C2_target_speed_in_range (p0 : ℤ × ℤ) (rest : List (ℤ × ℤ))
    (hasc : (p0 :: rest).Pairwise (fun a b => a.1 < b.1))
    (hsp : ∀ p ∈ p0 :: rest, 0 ≤ p.2 ∧ p.2 ≤ 100)
    (T : ℤ) (hT : p0.1 ≤ T) :
    0 ≤ target_fan_speed (generate_curve_coefficients (p0 :: rest)) T ∧
      target_fan_speed (generate_curve_coefficients (p0 :: rest)) T ≤ 100 := by
  rw [generate_eq_of_sorted p0 rest hasc]
  exact target_segmentsFrom_bounds T rest p0 hasc hsp hT

/-- C2 witness: the default curve at temperature 50 lands in [0,100]. -/
theorem C2_witness :
    0 ≤ target_fan_speed (generate_curve_coefficients TEMPERATURE_CURVE) 50 ∧
      target_fan_speed (generate_curve_coefficients TEMPERATURE_CURVE) 50 ≤ 100 :=
  C2_target_speed_in_range (0, 0) [(40, 20), (60, 50), (80, 80), (90, 100)]
    (by decide) (by decide) 50 (by decide)

/-- C2 counterexample: with a configured speed outside [0,100] the result is
not clamped (curve `[(0,0),(10,200)]` at 10 gives 200), and even with the
in-range default curve a temperature below the lowest point gives a negative
result (default curve at -10 gives -5). -/
theorem C2_counterexample :
    (target_fan_speed (generate_curve_coefficients [((0 : ℤ), (0 : ℤ)), (10, 200)]) 10 = 200 ∧
      ¬ target_fan_speed (generate_curve_coefficients [((0 : ℤ), (0 : ℤ)), (10, 200)]) 10 ≤ 100) ∧
      target_fan_speed (generate_curve_coefficients TEMPERATURE_CURVE) (-10) = -5 ∧
      ¬ 0 ≤ target_fan_speed (generate_curve_coefficients TEMPERATURE_CURVE) (-10) := by
  have h200 : target_fan_speed (generate_curve_coefficients [((0 : ℤ), (0 : ℤ)), (10, 200)]) 10
      = 200 := by
    rw [generate_eq_of_sorted _ _ (by decide)]
    norm_num [segmentsFrom_cons, segmentsFrom_nil, target_fan_speed_cons, pyTrunc]
  refine ⟨⟨h200, ?_⟩, target_default_neg10, ?_⟩
  · rw [h200]; decide
  · rw [target_default_neg10]; decide

/-- C3 (amended): for every valid curve (at least two points, strictly
increasing temperatures), `target_fan_speed` at a temperature equal to the
lowest control point's temperature returns the lowest point's speed. (The
claim's "or below" fails: strictly below the lowest point the first segment
extrapolates linearly; see the counterexample.) -/
theorem C3_lowest_point (p0 p1 : ℤ × ℤ) (rest : List (ℤ × ℤ))
    (hasc : (p0 :: p1 :: rest).Pairwise (fun a b => a.1 < b.1)) :
    target_fan_speed (generate_curve_coefficients (p0 :: p1 :: rest)) p0.1 = p0.2 := by
  rw [generate_eq_of_sorted _ _ hasc, segmentsFrom_cons, target_fan_speed_cons]
  dsimp only
  have hlt : p0.1 < p1.1 := (List.pairwise_cons.mp hasc).1 p1 (List.mem_cons_self _ _)
  rw [if_pos (le_of_lt hlt)]
  have harg : ((p1.2 : ℚ) - (p0.2 : ℚ)) / ((p1.1 : ℚ) - (p0.1 : ℚ)) * (p0.1 : ℚ) +
      ((p0.2 : ℚ) - ((p1.2 : ℚ) - (p0.2 : ℚ)) / ((p1.1 : ℚ) - (p0.1 : ℚ)) * (p0.1 : ℚ)) =
      (p0.2 : ℚ) := by ring
  rw [harg, pyTrunc_intCast]

/-- C3 witness: the default curve at temperature 0 (its lowest control point's
temperature) gives 0 (its lowest control point's speed). -/
theorem C3_witness :
    target_fan_speed (generate_curve_coefficients TEMPERATURE_CURVE) 0 = 0 :=
  C3_lowest_point (0, 0) (40, 20) [(60, 50), (80, 80), (90, 100)] (by decide)

/-- C3 counterexample: -10 is at or below the default curve's lowest control
point temperature 0, yet the result is -5, not the lowest point's speed 0. -/
theorem C3_counterexample :
    (-10 : ℤ) ≤ 0 ∧
      target_fan_speed (generate_curve_coefficients TEMPERATURE_CURVE) (-10) = -5 ∧
      (-5 : ℤ) ≠ 0 :=
  ⟨by decide, target_default_neg10, by decide⟩

/-- Scanning segments whose keys all lie strictly below the temperature falls
through to the 100 default. -/
lemma target_segmentsFrom_above (T : ℤ) (rest : List (ℤ × ℤ)) :
    ∀ previous : ℤ × ℤ, (∀ p ∈ rest, p.1 < T) →
      target_fan_speed (segmentsFrom previous rest) T = 100 := by
  induction rest with
  | nil => intro previous _; rfl
  | cons c rest ih =>
    intro previous habove
    rw [segmentsFrom_cons, target_fan_speed_cons]
    dsimp only
    rw [if_neg (not_le.mpr (habove c (List.mem_cons_self c rest)))]
    exact ih c fun p hp => habove p (List.mem_cons_of_mem c hp)

/-- C4: for every valid curve (at least two points, strictly increasing
temperatures) and every temperature strictly greater than every control
point's temperature (in particular greater than the highest), no segment
matches and `target_fan_speed` returns 100. -/
theorem C4_above_highest (input : List (ℤ × ℤ)) (hlen : 2 ≤ input.length)
    (hasc : input.Pairwise (fun a b => a.1 < b.1))
    (T : ℤ) (habove : ∀ p ∈ input, p.1 < T) :
    target_fan_speed (generate_curve_coefficients input) T = 100 := by
  match input with
  | [] => simp at hlen
  | p0 :: rest =>
    rw [generate_eq_of_sorted _ _ hasc]
    exact target_segmentsFrom_above T rest p0
      fun p hp => habove p (List.mem_cons_of_mem p0 hp)

/-- C4 witness: the default curve at 95 (above its highest point 90) gives
100. -/
theorem C4_witness :
    target_fan_speed (generate_curve_coefficients TEMPERATURE_CURVE) 95 = 100 :=
  C4_above_highest TEMPERATURE_CURVE (by decide) (by decide) 95 (by decide)

/-- The accumulator walk emits exactly the consecutive-pair segments of the
specification. -/
lemma segmentsFrom_eq_spec :
    ∀ (rest : List (ℤ × ℤ)) (p : ℤ × ℤ), segmentsFrom p rest = buildCurveSpec (p :: rest) := by
  intro rest
  induction rest with
  | nil => intro p; rfl
  | cons c rest ih =>
    intro p
    have hstep : buildCurveSpec (p :: c :: rest) =
        (c.1, ((c.2 : ℚ) - (p.2 : ℚ)) / ((c.1 : ℚ) - (p.1 : ℚ)),
          (p.2 : ℚ) - ((c.2 : ℚ) - (p.2 : ℚ)) / ((c.1 : ℚ) - (p.1 : ℚ)) * (p.1 : ℚ)) ::
          buildCurveSpec (c :: rest) := rfl
    rw [segmentsFrom_cons, hstep, ih c]

/-- The scan of `target_fan_speed` agrees with the first-match description of
the specification. -/
lemma target_eq_evaluateSpec (curve : List (ℤ × ℚ × ℚ)) (T : ℤ) :
    target_fan_speed curve T = evaluateSpec curve T := by
  induction curve with
  | nil => rfl
  | cons seg rest ih =>
    rw [target_fan_speed_cons]
    by_cases h : T ≤ seg.1
    · rw [if_pos h]
      unfold evaluateSpec
      rw [List.find?_cons_of_pos _ (by simpa using h)]
    · rw [if_neg h, ih]
      unfold evaluateSpec
      rw [List.find?_cons_of_neg _ (by simpa using h)]

/-- C5: on a sorted point list, `generate_curve_coefficients` computes, for
each consecutive pair, slope `(s1-s0)/(t1-t0)` and intercept `s0 - slope*t0`
keyed by `t1`; `target_fan_speed` returns the first segment in ascending
upper-bound order covering the temperature, truncating toward zero; and the
default curve at 50 gives 35. -/
theorem C5_build_and_evaluate :
    (∀ input : List (ℤ × ℤ), input.Pairwise (fun a b => a.1 < b.1) →
        generate_curve_coefficients input = buildCurveSpec input) ∧
      (∀ (curve : List (ℤ × ℚ × ℚ)) (T : ℤ), target_fan_speed curve T = evaluateSpec curve T) ∧
        target_fan_speed (generate_curve_coefficients TEMPERATURE_CURVE) 50 = 35 := by
  refine ⟨?_, target_eq_evaluateSpec, target_default_50⟩
  intro input h
  match input with
  | [] => rfl
  | p0 :: rest => rw [generate_eq_of_sorted _ _ h, segmentsFrom_eq_spec]

/-- C5 witness: the refinement and the concrete evaluation at the default
curve. -/
theorem C5_witness :
    generate_curve_coefficients TEMPERATURE_CURVE = buildCurveSpec TEMPERATURE_CURVE ∧
      target_fan_speed (generate_curve_coefficients TEMPERATURE_CURVE) 50 = 35 :=
  ⟨C5_build_and_evaluate.1 TEMPERATURE_CURVE (by decide), C5_build_and_evaluate.2.2⟩

/-- C10: `generate_curve_coefficients` sorts its input by temperature, so on
point lists with pairwise distinct temperatures the produced curve does not
depend on the order of the input list; the specification's sorted-ascending
precondition is not needed by the implementation. -/
theorem C10_permutation_invariant (l₁ l₂ : List (ℤ × ℤ))
    (hperm : List.Perm l₁ l₂) (hnodup : (l₁.map Prod.fst).Nodup) :
    generate_curve_coefficients l₁ = generate_curve_coefficients l₂ := by
  have hsort : List.insertionSort pointLE l₁ = List.insertionSort pointLE l₂ := by
    have hps : List.Perm (List.insertionSort pointLE l₁) (List.insertionSort pointLE l₂) :=
      ((List.perm_insertionSort pointLE l₁).trans hperm).trans
        (List.perm_insertionSort pointLE l₂).symm
    have hs₁ : (List.insertionSort pointLE l₁).Pairwise pointLE :=
      List.sorted_insertionSort pointLE l₁
    have hs₂ : (List.insertionSort pointLE l₂).Pairwise pointLE :=
      List.sorted_insertionSort pointLE l₂
    have hnd : l₁.Pairwise (fun a b => a.1 ≠ b.1) := by
      rw [List.Nodup, List.pairwise_map] at hnodup
      exact hnodup
    have hne₁ : (List.insertionSort pointLE l₁).Pairwise (fun a b => a.1 ≠ b.1) :=
      ((List.perm_insertionSort pointLE l₁).pairwise_iff (fun hab => Ne.symm hab)).mpr hnd
    have hne₂ : (List.insertionSort pointLE l₂).Pairwise (fun a b => a.1 ≠ b.1) :=
      (hps.pairwise_iff (fun hab => Ne.symm hab)).mp hne₁
    have hlt₁ : (List.insertionSort pointLE l₁).Pairwise (fun a b => a.1 < b.1) :=
      (hs₁.and hne₁).imp fun h => lt_of_le_of_ne h.1 h.2
    have hlt₂ : (List.insertionSort pointLE l₂).Pairwise (fun a b => a.1 < b.1) :=
      (hs₂.and hne₂).imp fun h => lt_of_le_of_ne h.1 h.2
    have : IsAntisymm (ℤ × ℤ) (fun a b => a.1 < b.1) :=
      ⟨fun a b h1 h2 => absurd (lt_trans h1 h2) (lt_irrefl _)⟩
    exact List.eq_of_perm_of_sorted hps hlt₁ hlt₂
  unfold generate_curve_coefficients
  rw [hsort]

/-- C10 witness: a shuffled copy of the default control points produces the
same curve as the sorted original. -/
theorem C10_witness :
    generate_curve_coefficients [(90, 100), (0, 0), (60, 50), (40, 20), (80, 80)] =
      generate_curve_coefficients TEMPERATURE_CURVE :=
  C10_permutation_invariant _ _ (by decide) (by decide)

/-- A two-zone write pass that reports no error issued exactly the two clamped
writes. -/
lemma zone_writes_pair (writeOk : ℤ → ℤ → Bool) (base z1 o1 z2 o2 : ℤ)
    (hok : (zone_writes writeOk base [(z1, o1), (z2, o2)]).2 = none) :
    (zone_writes writeOk base [(z1, o1), (z2, o2)]).1 =
      [(z1, max (min (base + o1) 100) 0), (z2, max (min (base + o2) 100) 0)] := by
  by_cases h1 : writeOk z1 (max (min (base + o1) 100) 0) <;>
    by_cases h2 : writeOk z2 (max (min (base + o2) 100) 0) <;>
    simp [zone_writes, h1, h2] at hok ⊢

/-- C6: a loop iteration that completes without error evaluated the curve at
the maximum of the temperature readings and commanded each configured zone
independently with `clamp(base + offset, 0, 100)`: zone 0 with offset 0 and
zone 1 with offset -30. -/
theorem C6_zone_commands (writeOk : ℤ → ℤ → Bool) (curve : List (ℤ × ℚ × ℚ))
    (t : ℤ) (ts : List ℤ)
    (hok : (main_loop writeOk curve (some (t :: ts))).2 = none) :
    (main_loop writeOk curve (some (t :: ts))).1 =
      [(0, max (min (target_fan_speed curve (ts.foldl max t) + 0) 100) 0),
       (1, max (min (target_fan_speed curve (ts.foldl max t) + (-30)) 100) 0)] := by
  have hml : main_loop writeOk curve (some (t :: ts)) =
      zone_writes writeOk (target_fan_speed curve (ts.foldl max t)) [(0, 0), (1, -30)] := rfl
  rw [hml] at hok ⊢
  exact zone_writes_pair writeOk _ 0 0 1 (-30) hok

/-- C6 witness: with every write succeeding and one reading of 50 on the
default curve (base speed 35), zone 0 is commanded 35 and zone 1 is
commanded 5. -/
theorem C6_witness :
    (main_loop (fun _ _ => true) (generate_curve_coefficients TEMPERATURE_CURVE)
        (some [50])).1 = [(0, 35), (1, 5)] := by
  have h := C6_zone_commands (fun _ _ => true)
    (generate_curve_coefficients TEMPERATURE_CURVE) 50 [] rfl
  rw [h]
  norm_num [List.foldl_nil, target_default_50]

/-- C7: if the startup preset query fails, the captured restore value is the
fallback preset "optimal" (2, in particular not zero and not undefined); if
it succeeds, the captured value is the queried preset. The model is a pure
function of the query outcome: nothing else ever writes it. -/
theorem C7_capture_fallback (p : ℤ) :
    capture_exit_preset none = FAN_PRESET_OPTIMAL ∧
      capture_exit_preset none ≠ 0 ∧
      capture_exit_preset (some p) = p :=
  ⟨rfl, by decide, rfl⟩

/-- C8: the exit code is 2 whenever restoration fails, regardless of trigger;
with restoration succeeding it is 0 for the signal-triggered paths (signal
handler and KeyboardInterrupt arm) and 1 for the error-triggered path. -/
theorem C8_exit_codes :
    (∀ trigger : ShutdownTrigger, shutdown_exit_code trigger false = 2) ∧
      shutdown_exit_code ShutdownTrigger.signalInterrupt true = 0 ∧
      shutdown_exit_code ShutdownTrigger.keyboardInterrupt true = 0 ∧
      shutdown_exit_code ShutdownTrigger.loopError true = 1 :=
  ⟨fun trigger => by cases trigger <;> rfl, rfl, rfl, rfl⟩

/-- C9: a failed temperature read and an empty reading list both end the
iteration in a fatal error, with no zone-speed write issued and no default
speed substituted. -/
theorem C9_failed_or_empty_read_fatal (writeOk : ℤ → ℤ → Bool)
    (curve : List (ℤ × ℚ × ℚ)) :
    main_loop writeOk curve none = ([], some LoopError.tempReadFailed) ∧
      main_loop writeOk curve (some []) = ([], some LoopError.emptyTemps) :=
  ⟨rfl, rfl⟩

/-- C7 witness: the capture applied to a failed query and to a successful
query of preset 0. -/
theorem C7_witness :
    capture_exit_preset none = FAN_PRESET_OPTIMAL ∧ capture_exit_preset (some 0) = 0 :=
  ⟨(C7_capture_fallback 0).1, (C7_capture_fallback 0).2.2⟩

/-- C9 witness: the two fatal-read outcomes at a concrete write oracle and
curve. -/
theorem C9_witness :
    main_loop (fun _ _ => true) (generate_curve_coefficients TEMPERATURE_CURVE) none =
        ([], some LoopError.tempReadFailed) ∧
      main_loop (fun _ _ => true) (generate_curve_coefficients TEMPERATURE_CURVE) (some []) =
        ([], some LoopError.emptyTemps) :=
  C9_failed_or_empty_read_fatal (fun _ _ => true) (generate_curve_coefficients TEMPERATURE_CURVE)
